import Mathlib

/-!
Verification development for the U2F authenticator emulator's AUTHENTICATE
APDU handler (src/src/u2f-raw/authenticate.c) and the U2FHID version
constants (src/src/u2f-hid/message.h).

Bytes are modelled as `Nat`, byte buffers as `List Nat`, and a HID message
as its channel id, command byte and reassembled payload.  The external
cryptographic primitives (AES unwrap of the key handle, SHA-256, ECDSA
signing) are opaque to the handler; they are modelled as an abstract
`Crypto` record of pure functions, matching the spec's contract that the
low-level primitives are pure functions with named contracts.
-/

namespace U2F

/-- APDU header size: CLA, INS, P1, P2, LC(3 bytes) — 7 bytes. -/
def U2F_APDU_HEADER_SIZE : Nat := 7

/-- Size of an application parameter (SHA-256 output). -/
def U2F_APP_PARAM_SIZE : Nat := 32

/-- Size of a challenge parameter (SHA-256 output). -/
def U2F_CHA_PARAM_SIZE : Nat := 32

/-- Modelled from the spec: status word SW_NO_ERROR (raw_message.h is not in src/). -/
def SW_NO_ERROR : Nat := 0x9000

/-- Modelled from the spec: status word SW_CONDITIONS_NOT_SATISFIED (raw_message.h is not in src/). -/
def SW_CONDITIONS_NOT_SATISFIED : Nat := 0x6985

/-- Modelled from the spec: status word SW_WRONG_DATA (raw_message.h is not in src/). -/
def SW_WRONG_DATA : Nat := 0x6A80

/-- Modelled from the spec: the HID command byte for MSG (commands.h is not in src/). -/
def CMD_MSG : Nat := 0x83

/-- Modelled from the spec: AUTHENTICATE P1 mode check-only (authenticate.h is not in src/). -/
def U2F_AUTH_CHECK : Nat := 0x07

/-- Modelled from the spec: AUTHENTICATE P1 mode enforce-user-presence (authenticate.h is not in src/). -/
def U2F_AUTH_ENFORCE : Nat := 0x03

/-- Modelled from the spec: AUTHENTICATE P1 mode dont-enforce (authenticate.h is not in src/). -/
def U2F_AUTH_NO_ENFORCE : Nat := 0x08

/-- PROTOCOL_VERSION from src/src/u2f-hid/message.h. -/
def PROTOCOL_VERSION : Nat := 2

/-- MAJ_DEV_VERSION from src/src/u2f-hid/message.h. -/
def MAJ_DEV_VERSION : Nat := 0

/-- MIN_DEV_VERSION from src/src/u2f-hid/message.h. -/
def MIN_DEV_VERSION : Nat := 1

/-- BUILD_DEV_VERSION from src/src/u2f-hid/message.h. -/
def BUILD_DEV_VERSION : Nat := 0

/-- CAP_FLAGS from src/src/u2f-hid/message.h. -/
def CAP_FLAGS : Nat := 0

/-- A reassembled U2FHID message: channel id, command byte, payload bytes.
Responses are built with message_new_blank (cid, cmd) followed by
message_add_data appends, so the payload is the concatenation of the
appended chunks. -/
structure Message where
  cid : Nat
  cmd : Nat
  payload : List Nat
deriving DecidableEq

/-- Modelled from the spec: message_read (message.c is not in src/) copies
size bytes of the reassembled payload starting at offset into a caller
buffer; packet data areas beyond the logical payload are zero padding. -/
def message_read (m : Message) (offset size : Nat) : List Nat :=
  (m.payload.drop offset).take size
    ++ List.replicate (size - ((m.payload.drop offset).take size).length) 0

/-- struct authentification_params: challenge_param[32], application_param[32],
key_handle_size (one byte), overlaid on the request at offset
U2F_APDU_HEADER_SIZE. -/
structure AuthParams where
  challenge_param : List Nat
  application_param : List Nat
  key_handle_size : Nat
deriving DecidableEq

/-- The message_read of sizeof(struct authentification_params) bytes at
offset U2F_APDU_HEADER_SIZE performed by raw_authenticate_check and
raw_authenticate_enforce, split into the struct fields. -/
def read_auth_params (request : Message) : AuthParams :=
  ⟨(message_read request U2F_APDU_HEADER_SIZE
      (U2F_CHA_PARAM_SIZE + U2F_APP_PARAM_SIZE + 1)).take U2F_CHA_PARAM_SIZE,
   ((message_read request U2F_APDU_HEADER_SIZE
      (U2F_CHA_PARAM_SIZE + U2F_APP_PARAM_SIZE + 1)).drop U2F_CHA_PARAM_SIZE).take
      U2F_APP_PARAM_SIZE,
   ((message_read request U2F_APDU_HEADER_SIZE
      (U2F_CHA_PARAM_SIZE + U2F_APP_PARAM_SIZE + 1)).drop
      (U2F_CHA_PARAM_SIZE + U2F_APP_PARAM_SIZE)).headD 0⟩

/-- authenticate_get_key_handle_cipher: read key_handle_size bytes at offset
header + app param + challenge param + 1. -/
def get_key_handle_cipher (request : Message) (p : AuthParams) : List Nat :=
  message_read request
    (U2F_APDU_HEADER_SIZE + U2F_APP_PARAM_SIZE + U2F_CHA_PARAM_SIZE + 1)
    p.key_handle_size

/-- C size_t subtraction: (a - b) mod 2^64, for a < 2^64 and b ≤ 2^64. -/
def size_sub (a b : Nat) : Nat := (a + (2 ^ 64 - b)) % 2 ^ 64

/-- privkey_size = key_handle_size - U2F_APP_PARAM_SIZE, computed in size_t
arithmetic (no guard against key_handle_size < 32). -/
def privkey_size_of (key_handle_size : Nat) : Nat :=
  size_sub key_handle_size U2F_APP_PARAM_SIZE

/-- authenticate_response_sw: the two status bytes appended to a response,
high byte first. -/
def sw_bytes (status : Nat) : List Nat :=
  [(status >>> 8) % 256, status % 256]

/-- The four counter bytes as serialized by authenticate_response_counter and
(identically) inside authenticate_response_signature: byte 0 is
counter & 0xFF, byte 1 is (counter >> 8) & 0xFF, and so on
(least significant byte first). -/
def counter_bytes (counter : Nat) : List Nat :=
  [counter % 256, (counter >>> 8) % 256, (counter >>> 16) % 256,
   (counter >>> 24) % 256]

/-- The external cryptographic primitives, as pure functions.
aes_decrypt maps the ciphered key handle to the plain key handle
(crypto_aes_decrypt); hash is SHA-256 (crypto_hash); ec_bytes_to_key maps
private-key bytes to an EC key, represented by those bytes
(crypto_ec_bytes_to_key); ec_sign_with_key maps a key and a digest to a
DER-encoded ECDSA signature (crypto_ec_sign_with_key). -/
structure Crypto where
  aes_decrypt : List Nat → List Nat
  hash : List Nat → List Nat
  ec_bytes_to_key : List Nat → List Nat
  ec_sign_with_key : List Nat → List Nat → List Nat

/-- The plain key handle obtained by decrypting the request's key handle
cipher (authenticate_decrypt_key_handle_cipher applied to the result of
authenticate_get_key_handle_cipher). -/
def decrypted_key_handle (C : Crypto) (request : Message) : List Nat :=
  C.aes_decrypt (get_key_handle_cipher request (read_auth_params request))

/-- The 32 bytes at key_handle + privkey_size that raw_authenticate_check
compares against the request's application parameter: the application
parameter bound into the key handle. -/
def bound_application_param (C : Crypto) (request : Message) : List Nat :=
  ((decrypted_key_handle C request).drop
    (privkey_size_of (decrypted_key_handle C request).length)).take
    U2F_APP_PARAM_SIZE

/-- authenticate_get_pubkey_from_key_handle: build an EC key from the first
privkey_size = key_handle_size - U2F_APP_PARAM_SIZE bytes of the plain key
handle. -/
def authenticate_get_pubkey_from_key_handle (C : Crypto)
    (key_handle : List Nat) (key_handle_size : Nat) : List Nat :=
  C.ec_bytes_to_key (key_handle.take (privkey_size_of key_handle_size))

/-- The buffer assembled by authenticate_response_signature before hashing:
application_param, then the presence byte, then the four counter bytes in
the source's byte order, then challenge_param. -/
def authenticate_buffer_to_sign (p : AuthParams) (presence counter : Nat) :
    List Nat :=
  p.application_param ++ [presence] ++ counter_bytes counter
    ++ p.challenge_param

/-- authenticate_response_signature: hash the assembled buffer and sign the
digest with the given key. -/
def authenticate_response_signature (C : Crypto) (key : List Nat)
    (p : AuthParams) (presence counter : Nat) : List Nat :=
  C.ec_sign_with_key key
    (C.hash (authenticate_buffer_to_sign p presence counter))

/-- raw_authenticate_check: read the params, decrypt the key handle, compare
the bound application parameter with the request's; on mismatch answer
SW_WRONG_DATA, on match SW_CONDITIONS_NOT_SATISFIED.  The response is a
blank CMD_MSG message on the request's cid to which only the two status
bytes are added. -/
def raw_authenticate_check (C : Crypto) (request : Message) : Message :=
  ⟨request.cid, CMD_MSG,
    sw_bytes
      (if bound_application_param C request
          = (read_auth_params request).application_param
        then SW_CONDITIONS_NOT_SATISFIED
        else SW_WRONG_DATA)⟩

/-- raw_authenticate_enforce: read the params, decrypt the key handle, build
the key from it, then append to a blank CMD_MSG response on the request's
cid: the presence byte 1, the four counter bytes for counter value 1, the
signature over (app param, presence 1, counter 1, challenge param) with the
key-handle key, and SW_NO_ERROR.  Note: no comparison of the bound
application parameter with the request's is performed. -/
def raw_authenticate_enforce (C : Crypto) (request : Message) : Message :=
  ⟨request.cid, CMD_MSG,
    [1] ++ counter_bytes 1
      ++ authenticate_response_signature C
           (authenticate_get_pubkey_from_key_handle C
             (decrypted_key_handle C request)
             (decrypted_key_handle C request).length)
           (read_auth_params request) 1 1
      ++ sw_bytes SW_NO_ERROR⟩

/-- raw_authenticate_no_enforce: logs and returns NULL. -/
def raw_authenticate_no_enforce (_request : Message) : Option Message :=
  none

/-- header->p1: byte 2 of the frame header overlaid on the start of the
request payload (CLA, INS, P1, ...). -/
def request_p1 (request : Message) : Nat := request.payload.getD 2 0

/-- raw_authenticate_handler: dispatch on P1; unknown values yield NULL. -/
def raw_authenticate_handler (C : Crypto) (request : Message) :
    Option Message :=
  if request_p1 request = U2F_AUTH_CHECK then
    some (raw_authenticate_check C request)
  else if request_p1 request = U2F_AUTH_ENFORCE then
    some (raw_authenticate_enforce C request)
  else if request_p1 request = U2F_AUTH_NO_ENFORCE then
    raw_authenticate_no_enforce request
  else
    none

/-- Modelled from the spec: the U2FHID INIT response payload (the INIT
handler, in u2f-hid code, is not in src/): the echoed 8-byte nonce, the
4-byte channel id, then PROTOCOL_VERSION, MAJ_DEV_VERSION, MIN_DEV_VERSION,
BUILD_DEV_VERSION and CAP_FLAGS, taking the five constants from
src/src/u2f-hid/message.h. -/
def init_response_payload (nonce new_cid : List Nat) : List Nat :=
  nonce ++ new_cid
    ++ [PROTOCOL_VERSION, MAJ_DEV_VERSION, MIN_DEV_VERSION,
        BUILD_DEV_VERSION, CAP_FLAGS]

/-- A concrete crypto instance for evaluating the handlers on test vectors:
decryption is the identity, the digest is the first 32 bytes of the buffer,
a key is its byte string, a signature is the key followed by the digest. -/
def testCrypto : Crypto :=
  ⟨fun c => c, fun b => b.take 32, fun b => b, fun k d => k ++ d⟩

/-- An enforce request (P1 = 3): challenge AA…AA, application param BB…BB,
key handle size 33, key handle cipher decrypting (under testCrypto) to a
1-byte private key 01 followed by the bound application param CC…CC, which
differs from the request's BB…BB. -/
def testRequestEnforce : Message :=
  ⟨1, CMD_MSG,
    [0, 2, 3, 0, 0, 0, 97]
      ++ List.replicate 32 0xAA ++ List.replicate 32 0xBB
      ++ [33] ++ ([1] ++ List.replicate 32 0xCC)⟩

/-- The same request with P1 = 7 (check-only). -/
def testRequestCheck : Message :=
  ⟨1, CMD_MSG,
    [0, 2, 7, 0, 0, 0, 97]
      ++ List.replicate 32 0xAA ++ List.replicate 32 0xBB
      ++ [33] ++ ([1] ++ List.replicate 32 0xCC)⟩

/-- The same request with P1 = 8 (dont-enforce). -/
def testRequestNoEnforce : Message :=
  ⟨1, CMD_MSG,
    [0, 2, 8, 0, 0, 0, 97]
      ++ List.replicate 32 0xAA ++ List.replicate 32 0xBB
      ++ [33] ++ ([1] ++ List.replicate 32 0xCC)⟩

/-- An enforce request with a matching key handle: the bound application
param BB…BB equals the request's. -/
def testRequestEnforceMatch : Message :=
  ⟨1, CMD_MSG,
    [0, 2, 3, 0, 0, 0, 98]
      ++ List.replicate 32 0xAA ++ List.replicate 32 0xBB
      ++ [33] ++ ([1] ++ List.replicate 32 0xBB)⟩

/-- A request with an unknown P1 byte (0). -/
def testRequestUnknown : Message :=
  ⟨1, CMD_MSG,
    [0, 2, 0, 0, 0, 0, 98]
      ++ List.replicate 32 0xAA ++ List.replicate 32 0xBB
      ++ [33] ++ ([1] ++ List.replicate 32 0xCC)⟩

/-- C1: the claim says an enforce request whose key handle decrypts to a
bound application parameter different from the request's is answered with
SW_WRONG_DATA and no signature.  The code performs no such comparison: at a
concrete enforce request whose key handle binds CC…CC while the request
carries BB…BB, the handler returns the full signed response ending in
SW_NO_ERROR. -/
theorem c1_enforce_ignores_app_param_mismatch :
    bound_application_param testCrypto testRequestEnforce
        ≠ (read_auth_params testRequestEnforce).application_param
      ∧ raw_authenticate_handler testCrypto testRequestEnforce
        = some (raw_authenticate_enforce testCrypto testRequestEnforce)
      ∧ (raw_authenticate_enforce testCrypto testRequestEnforce).payload
        = [1] ++ counter_bytes 1 ++ ([1] ++ List.replicate 32 0xBB)
            ++ sw_bytes SW_NO_ERROR
      ∧ sw_bytes SW_NO_ERROR ≠ sw_bytes SW_WRONG_DATA := by
  decide

/-- C2: the claim says both 4-byte counter fields (response payload and
signed buffer) are big-endian.  The code serializes the counter least
significant byte first: for counter value 1 both fields are 01 00 00 00,
not the big-endian 00 00 00 01. -/
theorem c2_counter_serialized_little_endian :
    counter_bytes 1 = [1, 0, 0, 0]
      ∧ counter_bytes 1 ≠ [0, 0, 0, 1]
      ∧ ((raw_authenticate_enforce testCrypto testRequestEnforce).payload.drop
          1).take 4 = [1, 0, 0, 0]
      ∧ ((authenticate_buffer_to_sign (read_auth_params testRequestEnforce)
          1 1).drop 33).take 4 = [1, 0, 0, 0] := by
  decide

/-- C3: every enforce request (P1 = 3) is answered with
presence byte 1, then the 4 counter bytes, then the ECDSA signature made
with the key recovered from the decrypted key handle (not the attestation
key) over the hash of application_param, presence, counter bytes and
challenge_param, then SW_NO_ERROR. -/
theorem c3_enforce_response_layout (C : Crypto) (request : Message)
    (h : request_p1 request = U2F_AUTH_ENFORCE) :
    raw_authenticate_handler C request
      = some ⟨request.cid, CMD_MSG,
          [1] ++ counter_bytes 1
            ++ C.ec_sign_with_key
                 (C.ec_bytes_to_key
                   ((decrypted_key_handle C request).take
                     (privkey_size_of
                       (decrypted_key_handle C request).length)))
                 (C.hash ((read_auth_params request).application_param
                   ++ [1] ++ counter_bytes 1
                   ++ (read_auth_params request).challenge_param))
            ++ sw_bytes SW_NO_ERROR⟩ := by
  simp [raw_authenticate_handler, h, U2F_AUTH_CHECK, U2F_AUTH_ENFORCE,
    raw_authenticate_enforce, authenticate_response_signature,
    authenticate_get_pubkey_from_key_handle, authenticate_buffer_to_sign]

/-- C3 witness: the layout theorem applied to the concrete enforce request. -/
theorem c3_enforce_response_layout_witness :
    request_p1 testRequestEnforce = U2F_AUTH_ENFORCE
      ∧ raw_authenticate_handler testCrypto testRequestEnforce
        = some ⟨testRequestEnforce.cid, CMD_MSG,
            [1] ++ counter_bytes 1
              ++ testCrypto.ec_sign_with_key
                   (testCrypto.ec_bytes_to_key
                     ((decrypted_key_handle testCrypto testRequestEnforce).take
                       (privkey_size_of
                         (decrypted_key_handle testCrypto
                           testRequestEnforce).length)))
                   (testCrypto.hash
                     ((read_auth_params testRequestEnforce).application_param
                       ++ [1] ++ counter_bytes 1
                       ++ (read_auth_params
                           testRequestEnforce).challenge_param))
              ++ sw_bytes SW_NO_ERROR⟩ :=
  ⟨by decide,
   c3_enforce_response_layout testCrypto testRequestEnforce (by decide)⟩

/-- C4: every check-only request (P1 = 7) is answered on the request's
channel with a CMD_MSG response whose payload is exactly the two status
bytes: SW_CONDITIONS_NOT_SATISFIED when the application parameter bound in
the decrypted key handle equals the request's, SW_WRONG_DATA otherwise; no
signature is produced. -/
theorem c4_check_response (C : Crypto) (request : Message)
    (h : request_p1 request = U2F_AUTH_CHECK) :
    raw_authenticate_handler C request
        = some ⟨request.cid, CMD_MSG,
            sw_bytes (if bound_application_param C request
                = (read_auth_params request).application_param
              then SW_CONDITIONS_NOT_SATISFIED
              else SW_WRONG_DATA)⟩
      ∧ ∀ status : Nat, (sw_bytes status).length = 2 := by
  constructor
  · simp [raw_authenticate_handler, h, raw_authenticate_check]
  · intro status
    rfl

/-- C4 witness: the check theorem applied to the concrete check request. -/
theorem c4_check_response_witness :
    request_p1 testRequestCheck = U2F_AUTH_CHECK
      ∧ (raw_authenticate_handler testCrypto testRequestCheck
          = some ⟨testRequestCheck.cid, CMD_MSG,
              sw_bytes (if bound_application_param testCrypto testRequestCheck
                  = (read_auth_params testRequestCheck).application_param
                then SW_CONDITIONS_NOT_SATISFIED
                else SW_WRONG_DATA)⟩
        ∧ ∀ status : Nat, (sw_bytes status).length = 2) :=
  ⟨by decide, c4_check_response testCrypto testRequestCheck (by decide)⟩

/-- C5: the claim says P1 = 8 behaves identically to enforce.  At a concrete
request with P1 = 8 the handler returns no message at all, while the
enforce treatment of the same request would be a full response: the two
differ. -/
theorem c5_no_enforce_differs_from_enforce :
    request_p1 testRequestNoEnforce = U2F_AUTH_NO_ENFORCE
      ∧ raw_authenticate_handler testCrypto testRequestNoEnforce = none
      ∧ raw_authenticate_handler testCrypto testRequestNoEnforce
        ≠ some (raw_authenticate_enforce testCrypto testRequestNoEnforce) := by
  decide

/-- C5 amended: for every request with P1 = 8 the handler returns no
response message (NULL), unlike the enforce case. -/
theorem c5_no_enforce_returns_none (C : Crypto) (request : Message)
    (h : request_p1 request = U2F_AUTH_NO_ENFORCE) :
    raw_authenticate_handler C request = none := by
  simp [raw_authenticate_handler, h, U2F_AUTH_CHECK, U2F_AUTH_ENFORCE,
    U2F_AUTH_NO_ENFORCE, raw_authenticate_no_enforce]

/-- C5 amended witness: applied at the concrete P1 = 8 request. -/
theorem c5_no_enforce_returns_none_witness :
    request_p1 testRequestNoEnforce = U2F_AUTH_NO_ENFORCE
      ∧ raw_authenticate_handler testCrypto testRequestNoEnforce = none :=
  ⟨by decide,
   c5_no_enforce_returns_none testCrypto testRequestNoEnforce (by decide)⟩

/-- C6: the claim says the counter of each enforce response is strictly
greater than the previous one's.  Two successive enforce responses (the
code keeps no counter state) both carry the identical counter field, value
1: the later response's counter is not greater than the earlier one's. -/
theorem c6_counter_not_monotonic :
    ((raw_authenticate_enforce testCrypto
        testRequestEnforceMatch).payload.drop 1).take 4 = counter_bytes 1
      ∧ ((raw_authenticate_enforce testCrypto
          testRequestEnforce).payload.drop 1).take 4 = counter_bytes 1
      ∧ counter_bytes 1 = [1, 0, 0, 0] := by
  decide

/-- C6 amended: the counter field of every enforce response is the constant
value 1 (serialized as the code serializes it); it never increases. -/
theorem c6_counter_always_one (C : Crypto) (request : Message) :
    ((raw_authenticate_enforce C request).payload.drop 1).take 4
      = counter_bytes 1 :=
  rfl

/-- C7: the U2FHID INIT response payload is the echoed nonce, the channel
id, then exactly the five bytes 02 00 01 00 00 (protocol version 2, device
version 0.1.0, capability flags 0). -/
theorem c7_init_response_version_bytes (nonce new_cid : List Nat) :
    init_response_payload nonce new_cid
        = nonce ++ new_cid
          ++ [PROTOCOL_VERSION, MAJ_DEV_VERSION, MIN_DEV_VERSION,
              BUILD_DEV_VERSION, CAP_FLAGS]
      ∧ [PROTOCOL_VERSION, MAJ_DEV_VERSION, MIN_DEV_VERSION,
         BUILD_DEV_VERSION, CAP_FLAGS] = [2, 0, 1, 0, 0] :=
  ⟨rfl, rfl⟩

/-- C8: a request whose P1 byte is none of check (7), enforce (3) or
dont-enforce (8) is answered with no response message at all. -/
theorem c8_unknown_p1_no_response (C : Crypto) (request : Message)
    (h1 : request_p1 request ≠ U2F_AUTH_CHECK)
    (h2 : request_p1 request ≠ U2F_AUTH_ENFORCE)
    (h3 : request_p1 request ≠ U2F_AUTH_NO_ENFORCE) :
    raw_authenticate_handler C request = none := by
  simp [raw_authenticate_handler, h1, h2, h3]

/-- C8 witness: applied at the concrete request with P1 = 0. -/
theorem c8_unknown_p1_no_response_witness :
    request_p1 testRequestUnknown ≠ U2F_AUTH_CHECK
      ∧ request_p1 testRequestUnknown ≠ U2F_AUTH_ENFORCE
      ∧ request_p1 testRequestUnknown ≠ U2F_AUTH_NO_ENFORCE
      ∧ raw_authenticate_handler testCrypto testRequestUnknown = none :=
  ⟨by decide, by decide, by decide,
   c8_unknown_p1_no_response testCrypto testRequestUnknown (by decide)
     (by decide) (by decide)⟩

/-- C9: privkey_size = key_handle_size - U2F_APP_PARAM_SIZE is computed in
size_t arithmetic with no guard; when the decrypted key handle is at least
U2F_APP_PARAM_SIZE bytes (and below 2^64) the subtraction does not wrap,
and both the 32-byte bound-application-parameter read at
key_handle + privkey_size and the privkey_size-byte private-key read stay
inside the decrypted buffer. -/
theorem c9_privkey_size_bounds (key_handle : List Nat)
    (h1 : U2F_APP_PARAM_SIZE ≤ key_handle.length)
    (h2 : key_handle.length < 2 ^ 64) :
    privkey_size_of key_handle.length
        = key_handle.length - U2F_APP_PARAM_SIZE
      ∧ privkey_size_of key_handle.length + U2F_APP_PARAM_SIZE
        = key_handle.length
      ∧ ((key_handle.drop (privkey_size_of key_handle.length)).take
          U2F_APP_PARAM_SIZE).length = U2F_APP_PARAM_SIZE
      ∧ (key_handle.take (privkey_size_of key_handle.length)).length
        = key_handle.length - U2F_APP_PARAM_SIZE := by
  have hpow : (2 : Nat) ^ 64 = 18446744073709551616 := by norm_num
  rw [hpow] at h2
  simp only [U2F_APP_PARAM_SIZE] at h1
  have key : privkey_size_of key_handle.length = key_handle.length - 32 := by
    simp only [privkey_size_of, size_sub, U2F_APP_PARAM_SIZE, hpow]
    omega
  refine ⟨?_, ?_, ?_, ?_⟩
  · rw [key]; rfl
  · rw [key]; simp only [U2F_APP_PARAM_SIZE]; omega
  · rw [key]
    simp only [List.length_take, List.length_drop, U2F_APP_PARAM_SIZE]
    omega
  · rw [key]
    simp only [List.length_take, U2F_APP_PARAM_SIZE]
    omega

/-- C9 witness: applied at a concrete 33-byte decrypted key handle. -/
theorem c9_privkey_size_bounds_witness :
    U2F_APP_PARAM_SIZE ≤ (List.replicate 33 (5 : Nat)).length
      ∧ (List.replicate 33 (5 : Nat)).length < 2 ^ 64
      ∧ (privkey_size_of (List.replicate 33 (5 : Nat)).length
            = (List.replicate 33 (5 : Nat)).length - U2F_APP_PARAM_SIZE
          ∧ privkey_size_of (List.replicate 33 (5 : Nat)).length
              + U2F_APP_PARAM_SIZE
            = (List.replicate 33 (5 : Nat)).length
          ∧ (((List.replicate 33 (5 : Nat)).drop
              (privkey_size_of (List.replicate 33 (5 : Nat)).length)).take
              U2F_APP_PARAM_SIZE).length = U2F_APP_PARAM_SIZE
          ∧ ((List.replicate 33 (5 : Nat)).take
              (privkey_size_of (List.replicate 33 (5 : Nat)).length)).length
            = (List.replicate 33 (5 : Nat)).length - U2F_APP_PARAM_SIZE) :=
  ⟨by decide, by decide,
   c9_privkey_size_bounds (List.replicate 33 (5 : Nat)) (by decide)
     (by decide)⟩

/-- C10: both the check and the enforce handler build their response on the
request's channel id with HID command CMD_MSG. -/
theorem c10_response_cid_and_cmd (C : Crypto) (request : Message) :
    (raw_authenticate_check C request).cid = request.cid
      ∧ (raw_authenticate_check C request).cmd = CMD_MSG
      ∧ (raw_authenticate_enforce C request).cid = request.cid
      ∧ (raw_authenticate_enforce C request).cmd = CMD_MSG :=
  ⟨rfl, rfl, rfl, rfl⟩

end U2F
